import Mathlib

/-
Verification of src/script/data_scraper.py against its specification.

The script is a bounded-concurrency fetch-and-store loop:
  - fetch_course_data(code): one HTTP GET, classify the response as a JSON
    value (Present) or None (Absent);
  - process_code(code_num, output_dir): render the code, fetch, write the
    file and update the successful/failed counters;
  - main(): run process_code over range(10000) and print a summary.

The embedding is shallow: the remote's behaviour for one request is a value
of type HttpResult (transport outcome, status, body), Python's mutable
globals and the filesystem are a ScrapeState record threaded explicitly,
and a Python exception escaping a function is the Except.error case.
Concurrency is modelled as a sequential fold: counter updates and file
writes happen under locks in the source, so the aggregate state at run end
does not depend on interleaving.
-/

/- A parsed JSON value, as produced by Python's json module:
None, bool, number, str, list, dict (insertion-ordered key/value pairs).
Lists and dicts are given by the mutual types JsonList and JsonFields so
that every function on values is structurally recursive. -/
mutual

inductive Json where
  | null : Json
  | bool (b : Bool) : Json
  | num (n : Int) : Json
  | str (s : String) : Json
  | arr (elems : JsonList) : Json
  | obj (fields : JsonFields) : Json

inductive JsonList where
  | nil : JsonList
  | cons (hd : Json) (tl : JsonList) : JsonList

inductive JsonFields where
  | nil : JsonFields
  | cons (key : String) (val : Json) (tl : JsonFields) : JsonFields

end

/-- Number of elements of a JSON list. -/
def JsonList.length : JsonList → Nat
  | JsonList.nil => 0
  | JsonList.cons _ tl => tl.length + 1

/-- Number of key/value pairs of a JSON object. -/
def JsonFields.length : JsonFields → Nat
  | JsonFields.nil => 0
  | JsonFields.cons _ _ tl => tl.length + 1

/-- Python `len(data)` on a parsed JSON value: defined for str, list and
dict; raises TypeError (here: `none`) on None, bool and numbers. -/
def pyLen : Json → Option Nat
  | Json.str s => some s.length
  | Json.arr xs => some xs.length
  | Json.obj kvs => some kvs.length
  | _ => none

/-- The body of an HTTP response, as seen by `response.json()`:
either it fails to parse as JSON, or it parses to a value. -/
inductive Body where
  | invalid : Body
  | json (v : Json) : Body

/-- Outcome of the network call `requests.get(url, headers, timeout=10)`
for a single request: either the transport fails (connection error or
timeout, i.e. a requests.RequestException) or a response arrives with a
status code and a body. -/
inductive HttpResult where
  | transportError : HttpResult
  | response (status : Nat) (body : Body) : HttpResult

/-- A Python exception that is not caught inside fetch_course_data. -/
inductive PyError where
  | typeError : PyError
deriving DecidableEq

/-- The mutable world of the script: the two global counters, the files
written to the output directory (path, content; appends model writes),
and the lines printed to the console. -/
structure ScrapeState where
  successful : Nat
  failed : Nat
  files : List (String × String)
  log : List String
deriving DecidableEq

/-- The state at the start of a run: both counters reset to zero. -/
def initState : ScrapeState :=
  { successful := 0, failed := 0, files := [], log := [] }

/-- `url = f'https://graduacao.ufms.br/portal/matriz/get-pre-requisitos/{code}'` -/
def request_url (code : String) : String :=
  "https://graduacao.ufms.br/portal/matriz/get-pre-requisitos/" ++ code

/-- The fixed header set of the request (the `headers` dict of the source),
with the Referer derived from the same code. -/
def request_headers (code : String) : List (String × String) :=
  [("Accept", "application/json"),
   ("Accept-Language", "en-US,en;q=0.5"),
   ("Accept-Encoding", "gzip, deflate, br, zstd"),
   ("X-Requested-With", "XMLHttpRequest"),
   ("Sec-GPC", "1"),
   ("Connection", "keep-alive"),
   ("Referer", "https://graduacao.ufms.br/cursos/" ++ code ++ "/matriz"),
   ("Sec-Fetch-Dest", "empty"),
   ("Sec-Fetch-Mode", "cors"),
   ("Sec-Fetch-Site", "same-origin"),
   ("Pragma", "no-cache"),
   ("Cache-Control", "no-cache")]

/-- fetch_course_data(code), given the remote's behaviour `net` for this
request. Mirrors the source line by line:
  - `except (requests.RequestException, json.JSONDecodeError): return None`
    catches the transport failure and the JSON parse failure;
  - `if response.status_code == 200` guards the parse;
  - `if len(data) == 0: return None` — but Python's `len` raises TypeError
    on a scalar JSON value (number, bool, None), and TypeError is not in
    the except clause, so it escapes as `Except.error`;
  - any non-200 status returns None.
The state is threaded through unchanged: the function touches neither the
counters nor the filesystem. -/
def fetch_course_data (code : String) (net : HttpResult) (st : ScrapeState) :
    Except PyError (Option Json) × ScrapeState :=
  let _url := request_url code
  let _headers := request_headers code
  match net with
  | HttpResult.transportError => (Except.ok none, st)
  | HttpResult.response status body =>
      if status = 200 then
        match body with
        | Body.invalid => (Except.ok none, st)
        | Body.json data =>
            match pyLen data with
            | none => (Except.error PyError.typeError, st)
            | some len => if len = 0 then (Except.ok none, st)
                          else (Except.ok (some data), st)
      else (Except.ok none, st)

/-- True exactly when fetch_course_data raises on this response: HTTP 200
with a body that parses to a scalar JSON value (no `len`). -/
def crashes_fetch (net : HttpResult) : Bool :=
  match net with
  | HttpResult.transportError => false
  | HttpResult.response status body =>
      if status = 200 then
        match body with
        | Body.invalid => false
        | Body.json v => (pyLen v).isNone
      else false

/-- The spec's Absent condition, formalised from its words: "the transport
fails (connection error, timeout), the HTTP status is not exactly 200, or
the body fails to parse as JSON", or "parse succeeds but the resulting
JSON value is empty". -/
def spec_absent (net : HttpResult) : Bool :=
  match net with
  | HttpResult.transportError => true
  | HttpResult.response status body =>
      if status = 200 then
        match body with
        | Body.invalid => true
        | Body.json v =>
            match pyLen v with
            | some 0 => true
            | _ => false
      else true

/-- The JSON value carried by a response, when there is one. -/
def parsed_value : HttpResult → Option Json
  | HttpResult.response _ (Body.json v) => some v
  | _ => none

/-- The decimal digit characters of `n`, most significant first; the fuel
argument (always at least n + 1 at the call site) makes the repeated
division structural. Models the rendering of a non-negative integer by
Python's format mini-language. -/
def natDigitsCore : Nat → Nat → List Char → List Char
  | 0, _, acc => acc
  | fuel + 1, n, acc =>
      let acc1 := Char.ofNat (48 + n % 10) :: acc
      if n < 10 then acc1 else natDigitsCore fuel (n / 10) acc1

/-- Decimal digits of `n`, most significant first. -/
def natDigits (n : Nat) : List Char := natDigitsCore (n + 1) n []

/-- `code = f"{code_num:04d}"`: the decimal rendering of the code number,
left-padded with zeros to at least 4 characters. -/
def format04 (n : Nat) : String :=
  let ds := natDigits n
  String.mk (List.replicate (4 - ds.length) '0' ++ ds)

/-- Decimal parsing of a string, formalising the spec's "round-trips to the
same integer via decimal parsing": defined exactly on non-empty all-digit
strings. -/
def decimal_parse (s : String) : Option Nat :=
  match s.data with
  | [] => none
  | cs => if cs.all (fun c => 48 ≤ c.toNat && c.toNat ≤ 57)
          then some (cs.foldl (fun a c => a * 10 + (c.toNat - 48)) 0)
          else none

/-- Hexadecimal digit character (lowercase), for \uXXXX escapes. -/
def hexDigitChar (n : Nat) : Char :=
  if n < 10 then Char.ofNat (48 + n) else Char.ofNat (87 + n)

/-- How Python's json.dump with ensure_ascii=False renders one character
inside a string literal: it escapes the quote, the backslash and ASCII
control characters, and leaves every other character (in particular every
non-ASCII character) literal. -/
def pyEscapeChar (c : Char) : List Char :=
  if c = '"' then ['\\', '"']
  else if c = '\\' then ['\\', '\\']
  else if c = '\n' then ['\\', 'n']
  else if c = '\t' then ['\\', 't']
  else if c = '\r' then ['\\', 'r']
  else if c = '\x08' then ['\\', 'b']
  else if c = '\x0c' then ['\\', 'f']
  else if c.toNat < 32 then
    ['\\', 'u', '0', '0', hexDigitChar (c.toNat / 16), hexDigitChar (c.toNat % 16)]
  else [c]

/-- A character json.dump (ensure_ascii=False) does not output literally. -/
def jsonNeedsEscape (c : Char) : Bool :=
  c = '"' || c = '\\' || decide (c.toNat < 32)

/-- The escaped body of a JSON string literal. -/
def pyEscapeString (s : String) : List Char :=
  s.data.foldr (fun c acc => pyEscapeChar c ++ acc) []

/-- A JSON string literal as json.dump (ensure_ascii=False) prints it. -/
def pyQuote (s : String) : String :=
  String.mk ('"' :: (pyEscapeString s ++ ['"']))

/-- `d` spaces of indentation. -/
def indentStr (d : Nat) : String := String.mk (List.replicate d ' ')

/- `json.dump(v, f, ensure_ascii=False, indent=2)` at indentation depth
`d` (dumpValue), with dumpItems and dumpEntries rendering the comma- and
newline-separated members of a non-empty list or object: empty containers
print inline, non-empty containers put each member on its own line
indented two further spaces, keys are separated from values by ": ". -/
mutual

def dumpValue : Nat → Json → String
  | _, Json.null => "null"
  | _, Json.bool true => "true"
  | _, Json.bool false => "false"
  | _, Json.num n => Int.repr n
  | _, Json.str s => pyQuote s
  | _, Json.arr JsonList.nil => "[]"
  | d, Json.arr xs => "[\n" ++ dumpItems (d + 2) xs ++ "\n" ++ indentStr d ++ "]"
  | _, Json.obj JsonFields.nil => "\x7b\x7d"
  | d, Json.obj kvs =>
      "\x7b\n" ++ dumpEntries (d + 2) kvs ++ "\n" ++ indentStr d ++ "\x7d"

def dumpItems : Nat → JsonList → String
  | _, JsonList.nil => ""
  | d, JsonList.cons x JsonList.nil => indentStr d ++ dumpValue d x
  | d, JsonList.cons x xs => indentStr d ++ dumpValue d x ++ ",\n" ++ dumpItems d xs

def dumpEntries : Nat → JsonFields → String
  | _, JsonFields.nil => ""
  | d, JsonFields.cons k v JsonFields.nil =>
      indentStr d ++ pyQuote k ++ ": " ++ dumpValue d v
  | d, JsonFields.cons k v kvs =>
      indentStr d ++ pyQuote k ++ ": " ++ dumpValue d v ++ ",\n" ++ dumpEntries d kvs

end

/-- The exact text json.dump(data, f, ensure_ascii=False, indent=2) writes. -/
def json_dump (v : Json) : String := dumpValue 0 v

/-- `os.path.join(output_dir, f"{code}.json")` for a relative directory
with no trailing separator. -/
def os_path_join (dir file : String) : String := dir ++ "/" ++ file

/-- The per-success console line `f"✓ {code}: Saved to {filename}"`. -/
def success_line (code filename : String) : String :=
  "✓ " ++ code ++ ": Saved to " ++ filename

/-- The periodic console line
`f"✗ Progress: {code} (Success: {successful}, Failed: {failed})"`. -/
def progress_line (code : String) (succ fail : Nat) : String :=
  "✗ Progress: " ++ code ++ " (Success: " ++ Nat.repr succ ++
    ", Failed: " ++ Nat.repr fail ++ ")"

/-- process_code(code_num, output_dir), given the remote's behaviour `net`
for this code's request. Mirrors the source: render the code, fetch; when
data is not None, write `<output_dir>/<code>.json` (under write_lock) then
increment `successful` and print the success line (under counter_lock);
when data is None, increment `failed` and print a progress line only when
`code_num % 100 == 0`. A TypeError escaping fetch_course_data propagates
out of process_code (the Except.error arm). -/
def process_code (net : HttpResult) (code_num : Nat) (output_dir : String)
    (st : ScrapeState) : Except PyError ((String × Bool) × ScrapeState) :=
  let code := format04 code_num
  match fetch_course_data code net st with
  | (Except.error e, _) => Except.error e
  | (Except.ok (some data), st1) =>
      let filename := os_path_join output_dir (code ++ ".json")
      let st2 := { st1 with files := st1.files ++ [(filename, json_dump data)] }
      let st3 := { st2 with successful := st2.successful + 1,
                            log := st2.log ++ [success_line code filename] }
      Except.ok ((code, true), st3)
  | (Except.ok none, st1) =>
      let st2 := { st1 with failed := st1.failed + 1 }
      let st3 := if code_num % 100 = 0
                 then { st2 with
                          log := st2.log ++
                            [progress_line code st2.successful st2.failed] }
                 else st2
      Except.ok ((code, false), st3)

/-- The code numbers main() submits: `range(10000)`. -/
def main_codes : List Nat := List.range 10000

/-- The orchestration loop of main(): each submitted code number runs
process_code; an exception raised by a task is caught where its completion
is awaited (`except Exception as e: print(...)`), leaving the counters and
files untouched. Sequential fold: see the header comment. -/
def run_tasks (resps : Nat → HttpResult) (output_dir : String) :
    List Nat → ScrapeState → ScrapeState
  | [], st => st
  | n :: ns, st =>
      let st1 :=
        match process_code (resps n) n output_dir st with
        | Except.ok (_, s) => s
        | Except.error _ => { st with log := st.log ++ ["Error processing code"] }
      run_tasks resps output_dir ns st1

/-- main(): counters reset to zero, all of range(10000) processed with
output directory "json". `resps` gives the remote's behaviour per code
number. -/
def run_all (resps : Nat → HttpResult) : ScrapeState :=
  run_tasks resps "json" main_codes initState

/-- The final summary's last line, `f"Total processed: {successful + failed}"`. -/
def total_processed_line (st : ScrapeState) : String :=
  "Total processed: " ++ Nat.repr (st.successful + st.failed)

/-- The character of one decimal digit. -/
def digitChar (d : Nat) : Char := Char.ofNat (48 + d)

/- ===== Helper lemmas about the code rendering ===== -/

theorem digitChar_toNat (d : Nat) (h : d < 10) : (digitChar d).toNat = 48 + d := by
  have hv : Nat.isValidChar (48 + d) := Or.inl (by omega)
  rw [digitChar, Char.ofNat, dif_pos hv]
  rfl

theorem natDigitsCore_one (fuel n : Nat) (acc : List Char) (hn : n < 10)
    (hf : 1 ≤ fuel) : natDigitsCore fuel n acc = digitChar (n % 10) :: acc := by
  obtain ⟨f, rfl⟩ : ∃ f, fuel = f + 1 := ⟨fuel - 1, by omega⟩
  simp [natDigitsCore, digitChar, if_pos hn]

theorem natDigitsCore_step (fuel n : Nat) (acc : List Char) (hn : 10 ≤ n)
    (hf : 1 ≤ fuel) :
    natDigitsCore fuel n acc =
      natDigitsCore (fuel - 1) (n / 10) (digitChar (n % 10) :: acc) := by
  obtain ⟨f, rfl⟩ : ∃ f, fuel = f + 1 := ⟨fuel - 1, by omega⟩
  simp [natDigitsCore, digitChar, if_neg (by omega : ¬ n < 10)]

theorem natDigits_shape (n : Nat) (h : n < 10000) :
    (n < 10 ∧ natDigits n = [digitChar n]) ∨
    (10 ≤ n ∧ n < 100 ∧ natDigits n = [digitChar (n / 10), digitChar (n % 10)]) ∨
    (100 ≤ n ∧ n < 1000 ∧ natDigits n =
      [digitChar (n / 100), digitChar (n / 10 % 10), digitChar (n % 10)]) ∨
    (1000 ≤ n ∧ natDigits n =
      [digitChar (n / 1000), digitChar (n / 100 % 10),
       digitChar (n / 10 % 10), digitChar (n % 10)]) := by
  by_cases h1 : n < 10
  · left
    refine ⟨h1, ?_⟩
    rw [natDigits, natDigitsCore_one _ _ _ h1 (by omega), Nat.mod_eq_of_lt h1]
  by_cases h2 : n < 100
  · right; left
    refine ⟨by omega, h2, ?_⟩
    rw [natDigits, natDigitsCore_step _ _ _ (by omega) (by omega)]
    rw [natDigitsCore_one _ _ _ (by omega) (by omega)]
    have e1 : n / 10 % 10 = n / 10 := by omega
    rw [e1]
  by_cases h3 : n < 1000
  · right; right; left
    refine ⟨by omega, h3, ?_⟩
    rw [natDigits, natDigitsCore_step _ _ _ (by omega) (by omega)]
    rw [natDigitsCore_step _ _ _ (by omega) (by omega)]
    rw [natDigitsCore_one _ _ _ (by omega) (by omega)]
    have e1 : n / 10 / 10 % 10 = n / 100 := by omega
    rw [e1]
  · right; right; right
    refine ⟨by omega, ?_⟩
    rw [natDigits, natDigitsCore_step _ _ _ (by omega) (by omega)]
    rw [natDigitsCore_step _ _ _ (by omega) (by omega)]
    rw [natDigitsCore_step _ _ _ (by omega) (by omega)]
    rw [natDigitsCore_one _ _ _ (by omega) (by omega)]
    have e1 : n / 10 / 10 / 10 % 10 = n / 1000 := by omega
    have e2 : n / 10 / 10 % 10 = n / 100 % 10 := by omega
    rw [e1, e2]

theorem format04_shape (n : Nat) (h : n < 10000) :
    format04 n = String.mk [digitChar (n / 1000), digitChar (n / 100 % 10),
                            digitChar (n / 10 % 10), digitChar (n % 10)] := by
  have h0 : digitChar 0 = '0' := by decide
  rcases natDigits_shape n h with ⟨h1, hd⟩ | ⟨h1, h2, hd⟩ | ⟨h1, h2, hd⟩ | ⟨h1, hd⟩
  · have e1 : n / 1000 = 0 := by omega
    have e2 : n / 100 % 10 = 0 := by omega
    have e3 : n / 10 % 10 = 0 := by omega
    have e4 : n % 10 = n := by omega
    simp only [format04, hd, e1, e2, e3, e4, h0]
    rfl
  · have e1 : n / 1000 = 0 := by omega
    have e2 : n / 100 % 10 = 0 := by omega
    have e3 : n / 10 % 10 = n / 10 := by omega
    simp only [format04, hd, e1, e2, e3, h0]
    rfl
  · have e1 : n / 1000 = 0 := by omega
    have e2 : n / 100 % 10 = n / 100 := by omega
    simp only [format04, hd, e1, e2, h0]
    rfl
  · simp only [format04, hd]
    rfl

theorem format04_length (n : Nat) (h : n < 10000) : (format04 n).length = 4 := by
  rw [format04_shape n h]
  rfl

theorem format04_roundtrip (n : Nat) (h : n < 10000) :
    decimal_parse (format04 n) = some n := by
  rw [format04_shape n h]
  have t0 := digitChar_toNat (n / 1000) (by omega)
  have t1 := digitChar_toNat (n / 100 % 10) (by omega)
  have t2 := digitChar_toNat (n / 10 % 10) (by omega)
  have t3 := digitChar_toNat (n % 10) (by omega)
  simp only [decimal_parse, List.all_cons, List.all_nil, List.foldl, t0, t1, t2, t3,
    Bool.and_eq_true, decide_eq_true_eq, Bool.and_true]
  rw [if_pos (by omega)]
  refine congrArg some ?_
  omega

/- ===== Helper lemmas about the fetcher ===== -/

theorem fetch_state_eq (code : String) (net : HttpResult) (st : ScrapeState) :
    (fetch_course_data code net st).2 = st := by
  cases net with
  | transportError => rfl
  | response status body =>
      by_cases hs : status = 200
      · cases body with
        | invalid => simp [fetch_course_data, hs]
        | json data =>
            cases hp : pyLen data with
            | none => simp [fetch_course_data, hs, hp]
            | some len =>
                by_cases hl : len = 0 <;> simp [fetch_course_data, hs, hp, hl]
      · simp [fetch_course_data, hs]

theorem fetch_cases (code : String) (net : HttpResult) (st : ScrapeState) :
    (crashes_fetch net = true ∧
      (fetch_course_data code net st).1 = Except.error PyError.typeError) ∨
    (crashes_fetch net = false ∧ spec_absent net = true ∧
      (fetch_course_data code net st).1 = Except.ok none) ∨
    (crashes_fetch net = false ∧ spec_absent net = false ∧
      ∃ v, parsed_value net = some v ∧
        (fetch_course_data code net st).1 = Except.ok (some v)) := by
  cases net with
  | transportError => right; left; exact ⟨rfl, rfl, rfl⟩
  | response status body =>
      by_cases hs : status = 200
      · subst hs
        cases body with
        | invalid =>
            right; left
            refine ⟨?_, ?_, ?_⟩
            · simp [crashes_fetch]
            · simp [spec_absent]
            · simp [fetch_course_data]
        | json data =>
            cases hp : pyLen data with
            | none =>
                left
                refine ⟨?_, ?_⟩
                · simp [crashes_fetch, hp]
                · simp [fetch_course_data, hp]
            | some len =>
                by_cases hl : len = 0
                · subst hl
                  right; left
                  refine ⟨?_, ?_, ?_⟩
                  · simp [crashes_fetch, hp]
                  · simp [spec_absent, hp]
                  · simp [fetch_course_data, hp]
                · obtain ⟨m, rfl⟩ : ∃ m, len = m + 1 := ⟨len - 1, by omega⟩
                  right; right
                  refine ⟨?_, ?_, data, rfl, ?_⟩
                  · simp [crashes_fetch, hp]
                  · simp [spec_absent, hp]
                  · simp [fetch_course_data, hp]
      · right; left
        refine ⟨?_, ?_, ?_⟩
        · simp [crashes_fetch, hs]
        · simp [spec_absent, hs]
        · simp [fetch_course_data, hs]

/- ===== Helper lemmas about process_code ===== -/

theorem process_code_error (net : HttpResult) (k : Nat) (dir : String)
    (st : ScrapeState) (e : PyError)
    (h : (fetch_course_data (format04 k) net st).1 = Except.error e) :
    process_code net k dir st = Except.error e := by
  have hst := fetch_state_eq (format04 k) net st
  rcases hfe : fetch_course_data (format04 k) net st with ⟨a, b⟩
  rw [hfe] at h hst
  dsimp at h hst
  subst h
  subst hst
  simp only [process_code, hfe]

theorem process_code_absent (net : HttpResult) (k : Nat) (dir : String)
    (st : ScrapeState)
    (h : (fetch_course_data (format04 k) net st).1 = Except.ok none) :
    process_code net k dir st =
      Except.ok ((format04 k, false),
        { successful := st.successful, failed := st.failed + 1,
          files := st.files,
          log := st.log ++
            (if k % 100 = 0
             then [progress_line (format04 k) st.successful (st.failed + 1)]
             else []) }) := by
  have hst := fetch_state_eq (format04 k) net st
  rcases hfe : fetch_course_data (format04 k) net st with ⟨a, b⟩
  rw [hfe] at h hst
  dsimp at h hst
  subst h
  subst hst
  simp only [process_code, hfe]
  by_cases hk : k % 100 = 0
  · simp [hk]
  · simp [hk]

theorem process_code_present (net : HttpResult) (k : Nat) (dir : String)
    (st : ScrapeState) (v : Json)
    (h : (fetch_course_data (format04 k) net st).1 = Except.ok (some v)) :
    process_code net k dir st =
      Except.ok ((format04 k, true),
        { successful := st.successful + 1, failed := st.failed,
          files := st.files ++ [(os_path_join dir (format04 k ++ ".json"), json_dump v)],
          log := st.log ++
            [success_line (format04 k) (os_path_join dir (format04 k ++ ".json"))] }) := by
  have hst := fetch_state_eq (format04 k) net st
  rcases hfe : fetch_course_data (format04 k) net st with ⟨a, b⟩
  rw [hfe] at h hst
  dsimp at h hst
  subst h
  subst hst
  simp only [process_code, hfe]

theorem fetch_ok_of_no_crash (code : String) (net : HttpResult) (st : ScrapeState)
    (h : crashes_fetch net = false) :
    ∃ o, (fetch_course_data code net st).1 = Except.ok o := by
  rcases fetch_cases code net st with ⟨hc, _⟩ | ⟨_, _, hf⟩ | ⟨_, _, v, _, hf⟩
  · rw [h] at hc
    cases hc
  · exact ⟨none, hf⟩
  · exact ⟨some v, hf⟩

theorem fetch_error_of_crash (code : String) (net : HttpResult) (st : ScrapeState)
    (h : crashes_fetch net = true) :
    (fetch_course_data code net st).1 = Except.error PyError.typeError := by
  rcases fetch_cases code net st with ⟨_, hf⟩ | ⟨hc, _, _⟩ | ⟨hc, _, _, _, _⟩
  · exact hf
  · rw [h] at hc
    cases hc
  · rw [h] at hc
    cases hc

/- ===== Helper lemmas about the orchestration loop ===== -/

theorem process_code_counts (net : HttpResult) (k : Nat) (dir : String)
    (st : ScrapeState) (h : crashes_fetch net = false) :
    ∃ r st', process_code net k dir st = Except.ok (r, st') ∧
      st'.successful + st'.failed = st.successful + st.failed + 1 := by
  obtain ⟨o, ho⟩ := fetch_ok_of_no_crash (format04 k) net st h
  cases o with
  | none =>
      refine ⟨_, _, process_code_absent net k dir st ho, ?_⟩
      dsimp
      omega
  | some v =>
      refine ⟨_, _, process_code_present net k dir st v ho, ?_⟩
      dsimp
      omega

theorem run_tasks_sum (resps : Nat → HttpResult) (dir : String) :
    ∀ (ns : List Nat) (st : ScrapeState),
      (∀ n ∈ ns, crashes_fetch (resps n) = false) →
      (run_tasks resps dir ns st).successful + (run_tasks resps dir ns st).failed =
        st.successful + st.failed + ns.length := by
  intro ns
  induction ns with
  | nil =>
      intro st _
      simp [run_tasks]
  | cons n ns ih =>
      intro st hall
      obtain ⟨r, st', hp, hsum⟩ :=
        process_code_counts (resps n) n dir st (hall n (by simp))
      simp only [run_tasks, hp]
      rw [ih st' (fun m hm => hall m (by simp [hm]))]
      simp only [List.length_cons]
      omega

theorem run_tasks_crash_const (net : HttpResult) (hc : crashes_fetch net = true)
    (dir : String) :
    ∀ (ns : List Nat) (st : ScrapeState),
      (run_tasks (fun _ => net) dir ns st).successful = st.successful ∧
      (run_tasks (fun _ => net) dir ns st).failed = st.failed := by
  intro ns
  induction ns with
  | nil =>
      intro st
      exact ⟨rfl, rfl⟩
  | cons n ns ih =>
      intro st
      have hp := process_code_error net n dir st PyError.typeError
        (fetch_error_of_crash _ _ _ hc)
      simp only [run_tasks, hp]
      exact ih _

/- ===== Claim theorems ===== -/

/-- C9: fetch_course_data has no side effects beyond the network call
itself: for every code and every response it leaves the counters
(successful/failed), the files of the output directory and the console
log exactly as they were. -/
theorem c9_fetch_no_side_effects (code : String) (net : HttpResult)
    (st : ScrapeState) :
    (fetch_course_data code net st).2.successful = st.successful ∧
    (fetch_course_data code net st).2.failed = st.failed ∧
    (fetch_course_data code net st).2.files = st.files ∧
    (fetch_course_data code net st).2.log = st.log := by
  rw [fetch_state_eq]
  exact ⟨rfl, rfl, rfl, rfl⟩

/-- C10: the classification of fetch_course_data is a deterministic
function of the HTTP response: two invocations with any codes and ambient
states, for the same status and body, return the identical result. -/
theorem c10_fetch_deterministic (code1 code2 : String) (net : HttpResult)
    (st1 st2 : ScrapeState) :
    (fetch_course_data code1 net st1).1 = (fetch_course_data code2 net st2).1 := by
  cases net with
  | transportError => rfl
  | response status body =>
      by_cases hs : status = 200
      · cases body with
        | invalid => simp [fetch_course_data, hs]
        | json data =>
            cases hp : pyLen data with
            | none => simp [fetch_course_data, hs, hp]
            | some len =>
                by_cases hl : len = 0 <;> simp [fetch_course_data, hs, hp, hl]
      · simp [fetch_course_data, hs]

/-- C8: every code whose task completes its classification mutates the run
tally exactly once: either successful grows by exactly one and failed is
unchanged, or failed grows by exactly one and successful is unchanged. -/
theorem c8_tally_exactly_once (net : HttpResult) (k : Nat) (dir : String)
    (st : ScrapeState) (r : String × Bool) (st' : ScrapeState)
    (h : process_code net k dir st = Except.ok (r, st')) :
    (st'.successful = st.successful + 1 ∧ st'.failed = st.failed) ∨
    (st'.successful = st.successful ∧ st'.failed = st.failed + 1) := by
  rcases fetch_cases (format04 k) net st with ⟨_, hf⟩ | ⟨_, _, hf⟩ | ⟨_, _, v, _, hf⟩
  · rw [process_code_error net k dir st _ hf] at h
    cases h
  · rw [process_code_absent net k dir st hf] at h
    simp only [Except.ok.injEq, Prod.mk.injEq] at h
    obtain ⟨-, h2⟩ := h
    subst h2
    right
    exact ⟨rfl, rfl⟩
  · rw [process_code_present net k dir st v hf] at h
    simp only [Except.ok.injEq, Prod.mk.injEq] at h
    obtain ⟨-, h2⟩ := h
    subst h2
    left
    exact ⟨rfl, rfl⟩

/-- Witness for c8_tally_exactly_once: a transport failure at code 3. -/
theorem c8_tally_exactly_once_witness :
    process_code HttpResult.transportError 3 "json" initState =
      Except.ok (("0003", false),
        { successful := 0, failed := 1, files := [], log := [] }) ∧
    ((({ successful := 0, failed := 1, files := [], log := [] } :
          ScrapeState).successful = initState.successful + 1 ∧
      ({ successful := 0, failed := 1, files := [], log := [] } :
          ScrapeState).failed = initState.failed) ∨
     (({ successful := 0, failed := 1, files := [], log := [] } :
          ScrapeState).successful = initState.successful ∧
      ({ successful := 0, failed := 1, files := [], log := [] } :
          ScrapeState).failed = initState.failed + 1)) :=
  ⟨rfl, c8_tally_exactly_once HttpResult.transportError 3 "json" initState _ _ rfl⟩

/-- C6: for every code classified Absent, a progress line is emitted if
and only if the numeric code value is divisible by 100; the gate is the
code value itself, not the count of failures nor arrival order. -/
theorem c6_progress_gate (net : HttpResult) (k : Nat) (dir : String)
    (st : ScrapeState)
    (habs : (fetch_course_data (format04 k) net st).1 = Except.ok none) :
    ∃ st', process_code net k dir st = Except.ok ((format04 k, false), st') ∧
      st'.log = st.log ++
        (if k % 100 = 0
         then [progress_line (format04 k) st.successful (st.failed + 1)]
         else []) ∧
      (st'.log ≠ st.log ↔ k % 100 = 0) := by
  refine ⟨_, process_code_absent net k dir st habs, rfl, ?_⟩
  dsimp only
  by_cases hk : k % 100 = 0
  · rw [if_pos hk]
    simp only [hk, iff_true]
    intro heq
    have hlen := congrArg List.length heq
    simp at hlen
  · rw [if_neg hk]
    simp [hk]

/-- Witness for c6_progress_gate: code 200 with a transport failure. -/
theorem c6_progress_gate_witness :
    ∃ st', process_code HttpResult.transportError 200 "json" initState =
        Except.ok ((format04 200, false), st') ∧
      st'.log = initState.log ++
        (if 200 % 100 = 0
         then [progress_line (format04 200) initState.successful
                (initState.failed + 1)]
         else []) ∧
      (st'.log ≠ initState.log ↔ 200 % 100 = 0) :=
  c6_progress_gate HttpResult.transportError 200 "json" initState rfl

/-- C7: for every integer code 0–9999, the rendered code string has
exactly 4 characters (leading zeros preserved) and decimal parsing of the
rendering returns the original integer. -/
theorem c7_format_roundtrip (n : Nat) (h : n < 10000) :
    (format04 n).length = 4 ∧ decimal_parse (format04 n) = some n :=
  ⟨format04_length n h, format04_roundtrip n h⟩

/-- Witness for c7_format_roundtrip at code 42. -/
theorem c7_format_roundtrip_witness :
    42 < 10000 ∧
    ((format04 42).length = 4 ∧ decimal_parse (format04 42) = some 42) :=
  ⟨by omega, c7_format_roundtrip 42 (by omega)⟩

/-- C5 as stated is false: the program enumerates the code value 9999
(range(10000) includes it), and 9999 does not lie in the half-open
interval [0, 9999). -/
theorem c5_code_9999_enumerated :
    9999 ∈ main_codes ∧ ¬ (9999 < 9999) := by
  refine ⟨List.mem_range.mpr (by omega), by omega⟩

/-- C5 amended: every code value the program enumerates lies in the
half-open interval [0, 10000), and each is rendered as a zero-padded
4-character decimal string. -/
theorem c5_codes_range_render (n : Nat) (h : n ∈ main_codes) :
    n < 10000 ∧ (format04 n).length = 4 := by
  have hn : n < 10000 := List.mem_range.mp h
  exact ⟨hn, format04_length n hn⟩

/-- Witness for c5_codes_range_render at code 0. -/
theorem c5_codes_range_render_witness :
    0 ∈ main_codes ∧ (0 < 10000 ∧ (format04 0).length = 4) :=
  ⟨List.mem_range.mpr (by omega),
   c5_codes_range_render 0 (List.mem_range.mpr (by omega))⟩

/- ===== Helper lemmas about the string escaper ===== -/

theorem pyEscapeChar_id (c : Char) (h : jsonNeedsEscape c = false) :
    pyEscapeChar c = [c] := by
  simp only [jsonNeedsEscape, Bool.or_eq_false_iff, decide_eq_false_iff_not] at h
  obtain ⟨⟨h1, h2⟩, h3⟩ := h
  have hn : c ≠ '\n' := by
    intro he
    subst he
    exact h3 (by decide)
  have ht : c ≠ '\t' := by
    intro he
    subst he
    exact h3 (by decide)
  have hr : c ≠ '\r' := by
    intro he
    subst he
    exact h3 (by decide)
  have hb : c ≠ '\x08' := by
    intro he
    subst he
    exact h3 (by decide)
  have hf : c ≠ '\x0c' := by
    intro he
    subst he
    exact h3 (by decide)
  rw [pyEscapeChar, if_neg h1, if_neg h2, if_neg hn, if_neg ht, if_neg hr,
    if_neg hb, if_neg hf, if_neg h3]

theorem pyEscapeList_id (l : List Char) (h : ∀ c ∈ l, jsonNeedsEscape c = false) :
    l.foldr (fun c acc => pyEscapeChar c ++ acc) [] = l := by
  induction l with
  | nil => rfl
  | cons c cs ih =>
      simp only [List.foldr_cons]
      rw [pyEscapeChar_id c (h c (by simp)), ih (fun d hd => h d (by simp [hd]))]
      rfl

theorem pyQuote_of_no_escape (s : String) (h : ∀ c ∈ s.data, jsonNeedsEscape c = false) :
    pyQuote s = "\"" ++ s ++ "\"" := by
  rw [pyQuote, pyEscapeString, pyEscapeList_id s.data h]
  cases s with
  | mk data => rfl

theorem json_dump_str (s : String) : json_dump (Json.str s) = pyQuote s := by
  simp [json_dump, dumpValue]

/-- C2 as stated is false: for the response with HTTP status 200 and the
valid JSON body `5` — which the spec's Absent condition does not cover —
fetch_course_data returns neither Absent nor Present: it raises a
TypeError at `len(data)` that escapes the function. -/
theorem c2_scalar_breaks_classification :
    spec_absent (HttpResult.response 200 (Body.json (Json.num 5))) = false ∧
    (fetch_course_data "0000" (HttpResult.response 200 (Body.json (Json.num 5)))
        initState).1 = Except.error PyError.typeError :=
  ⟨rfl, rfl⟩

/-- C2 amended: for every response that does not hit the scalar-200
TypeError case, fetch_course_data returns Absent (None) exactly when the
spec's condition holds (transport failure, non-200 status, parse failure
or empty parsed value); otherwise it returns Present with the parsed
value attached; and a code classified Absent produces no output file. -/
theorem c2_absent_classification (code : String) (net : HttpResult)
    (st : ScrapeState) (h : crashes_fetch net = false) :
    ((fetch_course_data code net st).1 = Except.ok none ↔ spec_absent net = true) ∧
    (spec_absent net = false →
      ∃ v, parsed_value net = some v ∧
        (fetch_course_data code net st).1 = Except.ok (some v)) ∧
    (∀ k dir st2 r st3,
      (fetch_course_data (format04 k) net st2).1 = Except.ok none →
      process_code net k dir st2 = Except.ok (r, st3) → st3.files = st2.files) := by
  refine ⟨?_, ?_, ?_⟩
  · rcases fetch_cases code net st with ⟨hc, _⟩ | ⟨_, ha, hf⟩ | ⟨_, ha, v, _, hf⟩
    · rw [h] at hc
      cases hc
    · rw [hf, ha]
      simp
    · rw [hf, ha]
      simp
  · intro ha
    rcases fetch_cases code net st with ⟨hc, _⟩ | ⟨_, ha2, _⟩ | ⟨_, _, v, hv, hf⟩
    · rw [h] at hc
      cases hc
    · rw [ha] at ha2
      cases ha2
    · exact ⟨v, hv, hf⟩
  · intro k dir st2 r st3 habs hp
    rw [process_code_absent net k dir st2 habs] at hp
    simp only [Except.ok.injEq, Prod.mk.injEq] at hp
    obtain ⟨-, h3⟩ := hp
    subst h3
    rfl

/-- Witness for c2_absent_classification: an HTTP 404 response. -/
theorem c2_absent_classification_witness :
    crashes_fetch (HttpResult.response 404 Body.invalid) = false ∧
    (((fetch_course_data "0404" (HttpResult.response 404 Body.invalid)
          initState).1 = Except.ok none ↔
        spec_absent (HttpResult.response 404 Body.invalid) = true) ∧
     (spec_absent (HttpResult.response 404 Body.invalid) = false →
       ∃ v, parsed_value (HttpResult.response 404 Body.invalid) = some v ∧
         (fetch_course_data "0404" (HttpResult.response 404 Body.invalid)
             initState).1 = Except.ok (some v)) ∧
     (∀ k dir st2 r st3,
       (fetch_course_data (format04 k) (HttpResult.response 404 Body.invalid)
           st2).1 = Except.ok none →
       process_code (HttpResult.response 404 Body.invalid) k dir st2 =
         Except.ok (r, st3) → st3.files = st2.files)) :=
  ⟨rfl, c2_absent_classification "0404" (HttpResult.response 404 Body.invalid)
    initState rfl⟩

/-- C3 as stated is false: the response with HTTP status 200 and the valid
JSON body `null` makes fetch_course_data raise a TypeError instead of
returning a normal Present/Absent value. -/
theorem c3_null_body_raises :
    ¬ ∃ o, (fetch_course_data "0001"
        (HttpResult.response 200 (Body.json Json.null)) initState).1 =
          Except.ok o := by
  rintro ⟨o, ho⟩
  simp [fetch_course_data, pyLen] at ho

/-- C3 amended: for every response whose 200-status parsed JSON value
supports `len` (object, array or string) — and for every transport
failure, non-200 status or parse failure — all error kinds are recovered
inside fetch_course_data and a normal (non-exceptional) value is
returned. -/
theorem c3_fetch_total_no_crash (code : String) (net : HttpResult)
    (st : ScrapeState) (h : crashes_fetch net = false) :
    ∃ o, (fetch_course_data code net st).1 = Except.ok o :=
  fetch_ok_of_no_crash code net st h

/-- Witness for c3_fetch_total_no_crash: a transport failure. -/
theorem c3_fetch_total_no_crash_witness :
    crashes_fetch HttpResult.transportError = false ∧
    ∃ o, (fetch_course_data "0002" HttpResult.transportError initState).1 =
      Except.ok o :=
  ⟨rfl, c3_fetch_total_no_crash "0002" HttpResult.transportError initState rfl⟩

/-- C4: for every code whose response has HTTP status 200 and a non-empty
JSON body, the result is Present and the file `<output_dir>/<code>.json`
is written containing exactly the pretty-printed equivalent of the parsed
value with 2-space indentation; and every character the dump does not
escape — in particular every non-ASCII character — appears literally in a
dumped string. -/
theorem c4_present_writes_file (k : Nat) (dir : String) (st : ScrapeState)
    (v : Json) (len : Nat) (hlen : pyLen v = some len) (hne : len ≠ 0) :
    process_code (HttpResult.response 200 (Body.json v)) k dir st =
      Except.ok ((format04 k, true),
        { successful := st.successful + 1, failed := st.failed,
          files := st.files ++
            [(os_path_join dir (format04 k ++ ".json"), json_dump v)],
          log := st.log ++
            [success_line (format04 k) (os_path_join dir (format04 k ++ ".json"))] }) ∧
    (∀ s : String, (∀ c ∈ s.data, jsonNeedsEscape c = false) →
      json_dump (Json.str s) = "\"" ++ s ++ "\"") := by
  constructor
  · apply process_code_present
    obtain ⟨m, rfl⟩ : ∃ m, len = m + 1 := ⟨len - 1, by omega⟩
    simp [fetch_course_data, hlen]
  · intro s hs
    rw [json_dump_str, pyQuote_of_no_escape s hs]

/-- Witness for c4_present_writes_file: code 1 with body `{"a": 1}`,
written to json/0001.json as the two-line indented object. -/
theorem c4_present_writes_file_witness :
    pyLen (Json.obj (JsonFields.cons "a" (Json.num 1) JsonFields.nil)) = some 1 ∧
    (1 : Nat) ≠ 0 ∧
    json_dump (Json.obj (JsonFields.cons "a" (Json.num 1) JsonFields.nil)) =
      "\x7b\n  \"a\": 1\n\x7d" ∧
    process_code (HttpResult.response 200
        (Body.json (Json.obj (JsonFields.cons "a" (Json.num 1) JsonFields.nil))))
        1 "json" initState =
      Except.ok (("0001", true),
        { successful := 1, failed := 0,
          files := [("json/0001.json", "\x7b\n  \"a\": 1\n\x7d")],
          log := ["✓ 0001: Saved to json/0001.json"] }) := by
  refine ⟨rfl, by omega, rfl, ?_⟩
  have h := (c4_present_writes_file 1 "json" initState
      (Json.obj (JsonFields.cons "a" (Json.num 1) JsonFields.nil)) 1 rfl
      (by omega)).1
  rw [h]
  rfl

theorem run_all_eq (resps : Nat → HttpResult) :
    run_all resps = run_tasks resps "json" main_codes initState := rfl

/-- C1 as stated is false: if every server response is HTTP 200 with the
scalar JSON body `5`, every one of the 10,000 tasks raises a TypeError
before touching the tally, and the final sum of the counters is 0, not
10,000. -/
theorem c1_scalar_run_breaks_total :
    ¬ ((run_all (fun _ => HttpResult.response 200
          (Body.json (Json.num 5)))).successful +
       (run_all (fun _ => HttpResult.response 200
          (Body.json (Json.num 5)))).failed = 10000) := by
  have h := run_tasks_crash_const
    (HttpResult.response 200 (Body.json (Json.num 5))) rfl "json"
    main_codes initState
  rw [run_all_eq, h.1, h.2]
  simp [initState]

/-- C1 amended: provided no server response is an HTTP 200 with a scalar
JSON body (the case whose TypeError skips the tally), after all 10,000
dispatched tasks complete the counters sum to exactly 10,000 and the
final summary prints this total. -/
theorem c1_counters_sum_10000 (resps : Nat → HttpResult)
    (h : ∀ n ∈ main_codes, crashes_fetch (resps n) = false) :
    (run_all resps).successful + (run_all resps).failed = 10000 ∧
    total_processed_line (run_all resps) = "Total processed: 10000" := by
  have hs := run_tasks_sum resps "json" main_codes initState h
  have hsum : (run_all resps).successful + (run_all resps).failed = 10000 := by
    rw [run_all_eq, hs]
    simp [initState, main_codes]
  refine ⟨hsum, ?_⟩
  rw [total_processed_line, hsum]
  rfl

/-- Witness for c1_counters_sum_10000: every request fails at transport. -/
theorem c1_counters_sum_10000_witness :
    (∀ n ∈ main_codes,
      crashes_fetch ((fun _ => HttpResult.transportError) n) = false) ∧
    ((run_all (fun _ => HttpResult.transportError)).successful +
       (run_all (fun _ => HttpResult.transportError)).failed = 10000 ∧
     total_processed_line (run_all (fun _ => HttpResult.transportError)) =
       "Total processed: 10000") :=
  ⟨fun _ _ => rfl,
   c1_counters_sum_10000 (fun _ => HttpResult.transportError) (fun _ _ => rfl)⟩
